import Mathlib

/-!
A verification development for the recursive sales-forecasting core of
`app.py` (Sales Forecasting for Sports Retail).

The embedding models a pandas day-level row as an association list from
column names to cells, where a cell is `Option ℚ` and `none` models a
missing value (NaN).  A data frame is the list of its rows, in order; all
rows of a source frame share one column set, and the frame's column set is
read off its first row.  Row assignment through `df.loc[i] = series`
aligns the series on the frame's columns (extra labels are dropped,
missing labels become NaN), which `alignAssign` reproduces.  Machine
floats are modelled as exact rationals.

Embedded functions (names follow `app.py`):
`prepare_prediction_data`, `update_lags`, `simulate_recursive_predictions`,
`apply_discount_to_dataframe`, `apply_competition_scenario`, the
simulate-button branch and the scenario-comparison loop.  The external
trained model is an opaque `Row → Except String ℚ`; a `.error` result
models a raised exception in `model.predict`.
-/

namespace SalesForecast


/-- A cell of a data frame: `none` models a missing value (NaN). -/
abbrev Cell := Option ℚ

/-- A pandas row (`pd.Series`): ordered association list from column names to cells. -/
abbrev Row := List (String × Cell)

/-- A pandas data frame: its rows in order. -/
abbrev DF := List Row

/-- Column membership test, `col in row.index`. -/
def hasCol : Row → String → Bool
  | [], _ => false
  | p :: t, c => p.1 = c || hasCol t c

/-- Lookup of a column on a row: `none` when the column is absent. -/
def getCol : Row → String → Option Cell
  | [], _ => none
  | p :: t, c => if p.1 = c then some p.2 else getCol t c

/-- Cell of a column on a row, with absent columns reading as NaN. -/
def getCellD (r : Row) (c : String) : Cell := (getCol r c).getD none

/-- Column assignment `row[col] = v`: replaces the cell in place when the
column exists, otherwise appends the new column at the end (pandas
`Series.__setitem__`). -/
def setCol : Row → String → Cell → Row
  | [], c, v => [(c, v)]
  | p :: t, c, v => if p.1 = c then (c, v) :: t else p :: setCol t c v

/-- Arithmetic mean of a list of values (`np.mean`). -/
def listMean (l : List ℚ) : ℚ := l.sum / l.length

/-- Elementwise division of two cells; NaN propagates (`df[a] / df[b]`). -/
def cellDiv : Cell → Cell → Cell
  | some a, some b => some (a / b)
  | _, _ => none

/-- Column set of a data frame, read off its first row (all rows of a
source frame share one column set, and row assignment never changes it). -/
def hasColDF (df : DF) (c : String) : Bool := hasCol (df.getD 0 []) c

/-- The cells of one column of a data frame, `df[col]`. -/
def colCells (df : DF) (c : String) : List Cell := df.map (fun r => getCellD r c)

/-- `df[col].notna().any()`. -/
def notnaAny (df : DF) (c : String) : Bool := (colCells df c).any (fun v => v.isSome)

/-- `df[col].mean()`: mean of the non-missing cells of a column. -/
def colMeanSkipNA (df : DF) (c : String) : ℚ := listMean ((colCells df c).filterMap id)

/-! ### Feature Resolver: `prepare_prediction_data` (app.py lines 92-108) -/
/-- The fill loop of `prepare_prediction_data`: each required column absent
from the row is added with default 0; one-hot family columns (names starting
with `nombre_h_`, `categoria_h_`, `subcategoria_h_`) and numeric columns
both default to 0, exactly as in the source. -/
def fillMissing (row : Row) : List String → Row
  | [] => row
  | col :: rest =>
    let row' :=
      if hasCol row col then row
      else if col.startsWith "nombre_h_" || col.startsWith "categoria_h_"
            || col.startsWith "subcategoria_h_" then setCol row col (some 0)
      else setCol row col (some 0)
    fillMissing row' rest

/-- `prepare_prediction_data(df, feature_cols)` for a single-row frame:
fill the missing required columns with defaults, then select exactly
`feature_cols`, in order. -/
def prepare_prediction_data (row : Row) (feature_cols : List String) : Row :=
  let df_pred := fillMissing row feature_cols
  feature_cols.map (fun c => (c, getCellD df_pred c))

/-! ### Scenario Transformer (app.py lines 175-207) -/
/-- `apply_discount_to_dataframe(df, discount_pct)` (app.py lines 175-185).
Works on a copy; when `precio_base` is a column of the frame,
`precio_venta` is set to `precio_base * (1 - discount_pct / 100)`,
`descuento_porcentaje` (when a column) is overwritten with `discount_pct`,
and `ratio_precio` is recomputed as `precio_venta / precio_competencia`
when `precio_competencia` is a column; otherwise the frame is returned
unchanged. -/
def apply_discount_to_dataframe (df : DF) (discount_pct : ℚ) : DF :=
  if hasColDF df "precio_base" then
    let hasDesc := hasColDF df "descuento_porcentaje"
    let hasComp := hasColDF df "precio_competencia"
    df.map (fun r =>
      let r1 := setCol r "precio_venta"
        ((getCellD r "precio_base").map (fun b => b * (1 - discount_pct / 100)))
      let r2 := if hasDesc then setCol r1 "descuento_porcentaje" (some discount_pct) else r1
      if hasComp then
        setCol r2 "ratio_precio"
          (cellDiv (getCellD r2 "precio_venta") (getCellD r2 "precio_competencia"))
      else r2)
  else df

/-- Scaling of one column of a frame when present (`df[col] = df[col] * factor`). -/
def scaleColDF (df : DF) (c : String) (factor : ℚ) : DF :=
  if hasColDF df c then
    df.map (fun r => setCol r c ((getCellD r c).map (fun x => x * factor)))
  else df

/-- `apply_competition_scenario(df, scenario_adjustment)` (app.py lines 187-207).
Works on a copy; a zero adjustment returns the frame unchanged; otherwise
`precio_competencia` is scaled by `1 + adjustment / 100` (recomputing
`ratio_precio` when `precio_venta` is a column) and each of the individual
competitor columns `Amazon`, `Decathlon`, `Deporvillage` is scaled by the
same factor when present. -/
def apply_competition_scenario (df : DF) (scenario_adjustment : ℚ) : DF :=
  if scenario_adjustment = 0 then df
  else
    let factor := 1 + scenario_adjustment / 100
    let df1 :=
      if hasColDF df "precio_competencia" then
        let hasVenta := hasColDF df "precio_venta"
        df.map (fun r =>
          let r1 := setCol r "precio_competencia"
            ((getCellD r "precio_competencia").map (fun x => x * factor))
          if hasVenta then
            setCol r1 "ratio_precio"
              (cellDiv (getCellD r1 "precio_venta") (getCellD r1 "precio_competencia"))
          else r1)
      else df
    scaleColDF (scaleColDF (scaleColDF df1 "Amazon" factor) "Decathlon" factor)
      "Deporvillage" factor

/-! ### Lag State Updater: `update_lags` (app.py lines 110-129) -/
/-- One step of the shift loop `for lag in range(7, 1, -1)`: when the
shorter-distance lag column `src` is on the row, write its cell into the
longer-distance lag column `dst` (creating `dst` when absent); otherwise
the step is skipped. -/
def shiftOne (src dst : String) (r : Row) : Row :=
  if hasCol r src then setCol r dst (getCellD r src) else r

/-- `update_lags(row, previous_pred, lag_history)`: shift the row's own lag
columns one position (distance 7 down to 2), set `lag1` to the previous
prediction, append the prediction to the history with a FIFO bound of 7,
and set `ma7` to the mean of the bounded history.  The function receives
only the next day's row; the current day's row is never consulted. -/
def update_lags (row : Row) (previous_pred : ℚ) (lag_history : List ℚ) :
    Row × List ℚ :=
  let r1 := shiftOne "unidades_vendidas_lag6" "unidades_vendidas_lag7" row
  let r2 := shiftOne "unidades_vendidas_lag5" "unidades_vendidas_lag6" r1
  let r3 := shiftOne "unidades_vendidas_lag4" "unidades_vendidas_lag5" r2
  let r4 := shiftOne "unidades_vendidas_lag3" "unidades_vendidas_lag4" r3
  let r5 := shiftOne "unidades_vendidas_lag2" "unidades_vendidas_lag3" r4
  let r6 := shiftOne "unidades_vendidas_lag1" "unidades_vendidas_lag2" r5
  let r7 := setCol r6 "unidades_vendidas_lag1" (some previous_pred)
  let hist1 := lag_history ++ [previous_pred]
  let hist2 := if 7 < hist1.length then hist1.drop 1 else hist1
  let r8 := setCol r7 "unidades_vendidas_ma7" (some (listMean hist2))
  (r8, hist2)

/-! ### Recursive Forecaster: `simulate_recursive_predictions` (app.py lines 131-173) -/
/-- The external trained model: `model.predict` on one prepared row either
returns a value or raises (modelled by `Except.error`). -/
abbrev Model := Row → Except String ℚ

/-- Date comparison for `sort_values('fecha')`; missing dates sort last. -/
def fechaLe (r1 r2 : Row) : Bool :=
  match getCellD r1 "fecha", getCellD r2 "fecha" with
  | some a, some b => decide (a ≤ b)
  | some _, none => true
  | none, _ => false

/-- Insertion step of the date sort. -/
def insertFecha (r : Row) : DF → DF
  | [] => [r]
  | x :: xs => if fechaLe x r then x :: insertFecha r xs else r :: x :: xs

/-- `df.sort_values('fecha').reset_index(drop=True)` as a stable insertion sort. -/
def sortByFecha : DF → DF
  | [] => []
  | r :: rs => insertFecha r (sortByFecha rs)

/-- The fallback of the `except` branch (app.py lines 154-160): the day's
known historical target when the target column exists and the day's entry
is non-missing, else the mean of the non-missing historical targets of the
frame, else 0.  The fallback value is not clamped. -/
def fallbackPred (df_sim : DF) (idx : Nat) : ℚ :=
  if hasColDF df_sim "unidades_vendidas" && notnaAny df_sim "unidades_vendidas" then
    match getCellD (df_sim.getD idx []) "unidades_vendidas" with
    | some v => v
    | none => colMeanSkipNA df_sim "unidades_vendidas"
  else 0

/-- One day's prediction (app.py lines 150-160): resolve the features,
invoke the predictor, clamp a successful result with `max(0, ...)`; on a
raise, record the fallback value (unclamped) and a warning flag. -/
def predForDay (model : Model) (feature_cols : List String) (df_sim : DF)
    (idx : Nat) : ℚ × Bool :=
  match model (prepare_prediction_data (df_sim.getD idx []) feature_cols) with
  | Except.ok p => (max 0 p, false)
  | Except.error _ => (fallbackPred df_sim idx, true)

/-- Write-back `df.loc[i] = series`: pandas aligns the series on the
frame's columns — each existing column takes the series' cell (NaN when the
series lacks the label) and labels outside the frame's columns are dropped. -/
def alignAssign (oldRow newRow : Row) : Row :=
  oldRow.map (fun p => (p.1, getCellD newRow p.1))

/-- The running state of one forecast run: the (mutated) day rows, the
recorded predictions, the lag history, and the days whose predictor call
raised (surfaced as warnings). -/
structure SimSt where
  rows : DF
  preds : List ℚ
  hist : List ℚ
  warns : List Nat
deriving DecidableEq, Repr

/-- The body of the day loop for day `idx` (app.py lines 140-170):
predict the day, record the value, and — unless this is the last day —
mutate day `idx+1`'s row and the lag history through `update_lags`. -/
def simStep (model : Model) (fc : List String) (n : Nat) (st : SimSt)
    (idx : Nat) : SimSt :=
  let pw := predForDay model fc st.rows idx
  let preds := st.preds ++ [pw.1]
  let warns := if pw.2 then st.warns ++ [idx] else st.warns
  if idx < n - 1 then
    let rh := update_lags (st.rows.getD (idx + 1) []) pw.1 st.hist
    { rows := st.rows.set (idx + 1) (alignAssign (st.rows.getD (idx + 1) []) rh.1),
      preds := preds, hist := rh.2, warns := warns }
  else
    { st with preds := preds, warns := warns }

/-- The state after the first `k` days of the loop over the sorted frame `s`. -/
def simStates (model : Model) (fc : List String) (s : DF) : Nat → SimSt
  | 0 => { rows := s, preds := [], hist := [], warns := [] }
  | k + 1 => simStep model fc s.length (simStates model fc s k) k

/-- The result of one forecast run: the day rows with the `predicciones`
column attached, the ordered prediction sequence, and the warned days. -/
structure SimOut where
  rows : DF
  preds : List ℚ
  warns : List Nat
deriving DecidableEq, Repr

/-- `simulate_recursive_predictions(df_product, model, feature_cols,
discount_pct, scenario_adjustment)`: sort the copied frame by date, run the
day loop, attach the predictions as the `predicciones` column.  The two
scenario arguments are accepted and unused inside the loop, as in the
source (the `idx == 0` discount branch performs no action). -/
def simulate_recursive_predictions (df_product : DF) (model : Model)
    (feature_cols : List String) (discount_pct scenario_adjustment : ℚ) : SimOut :=
  let df_sim := sortByFecha df_product
  let st := simStates model feature_cols df_sim df_sim.length
  { rows := st.rows.zipWith (fun r p => setCol r "predicciones" (some p)) st.preds,
    preds := st.preds,
    warns := st.warns }

/-! ### Simulate-button branch and scenario comparison (app.py lines 285-300, 443-451) -/
/-- One inference-frame row: the product name column together with the
day-level numeric columns. -/
structure IRow where
  nombre : String
  row : Row
deriving DecidableEq, Repr

/-- The simulate-button branch (app.py lines 285-300): filter the inference
frame to the selected product; an empty selection is refused with a fatal
error message and produces no prediction series; otherwise the discount and
competition transforms are applied and the Recursive Forecaster runs. -/
def simulate_button_branch (df_inference : List IRow) (selected_product : String)
    (model : Model) (feature_cols : List String)
    (discount_slider scenario_adjustment : ℚ) : Except String SimOut :=
  let df_product := (df_inference.filter
    (fun ir => ir.nombre = selected_product)).map (fun ir => ir.row)
  if df_product.length = 0 then
    Except.error ("No data found for product: " ++ selected_product)
  else
    Except.ok (simulate_recursive_predictions
      (apply_competition_scenario
        (apply_discount_to_dataframe df_product discount_slider) scenario_adjustment)
      model feature_cols discount_slider scenario_adjustment)

/-- One scenario of the comparison loop (app.py lines 444-451): transform a
copy of the base frame and run the Recursive Forecaster on it. -/
def run_scenario (df_product : DF) (model : Model) (fc : List String)
    (discount_slider adjustment : ℚ) : SimOut :=
  simulate_recursive_predictions
    (apply_competition_scenario
      (apply_discount_to_dataframe df_product discount_slider) adjustment)
    model fc discount_slider adjustment

/-- The scenario-comparison loop: each scenario is run in sequence from the
same base frame. -/
def run_scenario_comparison (df_product : DF) (model : Model) (fc : List String)
    (discount_slider : ℚ) (adjustments : List ℚ) : List SimOut :=
  adjustments.map (fun adj => run_scenario df_product model fc discount_slider adj)

/-- Witness data: a two-day skeleton with dates, historical targets, the
short lag columns and the rolling-average column. -/
def wRow0 : Row :=
  [("fecha", some 1), ("unidades_vendidas", some 4),
   ("unidades_vendidas_lag1", some 5), ("unidades_vendidas_lag2", some 6),
   ("unidades_vendidas_ma7", some 2)]

/-- Witness data: the second day of the two-day skeleton. -/
def wRow1 : Row :=
  [("fecha", some 2), ("unidades_vendidas", some 8),
   ("unidades_vendidas_lag1", some 9), ("unidades_vendidas_lag2", some 1),
   ("unidades_vendidas_ma7", some 3)]

/-- Witness data: the two-day frame. -/
def wDF : DF := [wRow0, wRow1]

/-- Witness data: a predictor that always succeeds with value 3. -/
def wModel : Model := fun _ => Except.ok 3

/-- Counterexample data: day 0 of a date-sorted two-day skeleton whose
`lag1` value (5) differs from day 1's own `lag1` value (9). -/
def cRow0 : Row := [("fecha", some 1), ("unidades_vendidas_lag1", some 5)]

/-- Counterexample data: day 1, carrying its own `lag1 = 9` and `lag2 = 1`. -/
def cRow1 : Row :=
  [("fecha", some 2), ("unidades_vendidas_lag1", some 9),
   ("unidades_vendidas_lag2", some 1)]

/-- Counterexample data: the two-day frame. -/
def cDF : DF := [cRow0, cRow1]

/-- Witness data: a predictor that always raises. -/
def wFailModel : Model := fun _ => Except.error "prediction failed"

/-- Counterexample data: a one-day skeleton whose historical target is
negative. -/
def negRow : Row := [("fecha", some 1), ("unidades_vendidas", some (-5))]

/-- Counterexample data: the one-day frame with a negative target. -/
def negDF : DF := [negRow]

/-- Witness data: a one-day skeleton with a non-negative historical target. -/
def posRow : Row := [("fecha", some 1), ("unidades_vendidas", some 5)]

/-- Witness data: the one-day frame with a non-negative target. -/
def posDF : DF := [posRow]

/-- Witness data: a one-product inference frame. -/
def wInference : List IRow := [{ nombre := "Camiseta", row := wRow0 }]

theorem getCol_setCol_self (r : Row) (c : String) (v : Cell) :
    getCol (setCol r c v) c = some v := by
  induction r with
  | nil => simp [setCol, getCol]
  | cons p t ih =>
    by_cases h : p.1 = c
    · simp [setCol, getCol, h]
    · simp [setCol, getCol, h, ih]

theorem getCol_setCol_ne (r : Row) {c c' : String} (v : Cell) (h : c' ≠ c) :
    getCol (setCol r c v) c' = getCol r c' := by
  induction r with
  | nil => simp [setCol, getCol, Ne.symm h]
  | cons p t ih =>
    by_cases hp : p.1 = c
    · simp [setCol, getCol, hp, Ne.symm h]
    · by_cases hp' : p.1 = c'
      · simp [setCol, getCol, hp, hp', h]
      · simp [setCol, getCol, hp, hp', ih]

theorem hasCol_setCol_self (r : Row) (c : String) (v : Cell) :
    hasCol (setCol r c v) c = true := by
  induction r with
  | nil => simp [setCol, hasCol]
  | cons p t ih =>
    by_cases h : p.1 = c
    · simp [setCol, hasCol, h]
    · simp [setCol, hasCol, h, ih]

theorem hasCol_setCol_ne (r : Row) {c c' : String} (v : Cell) (h : c' ≠ c) :
    hasCol (setCol r c v) c' = hasCol r c' := by
  induction r with
  | nil => simp [setCol, hasCol, Ne.symm h]
  | cons p t ih =>
    by_cases hp : p.1 = c
    · simp [setCol, hasCol, hp, Ne.symm h]
    · simp [setCol, hasCol, hp, ih]

theorem hasCol_eq_isSome_getCol (r : Row) (c : String) :
    hasCol r c = (getCol r c).isSome := by
  induction r with
  | nil => simp [hasCol, getCol]
  | cons p t ih =>
    by_cases h : p.1 = c
    · simp [hasCol, getCol, h]
    · simp [hasCol, getCol, h, ih]

theorem getCellD_setCol_self (r : Row) (c : String) (v : Cell) :
    getCellD (setCol r c v) c = v := by
  simp [getCellD, getCol_setCol_self]

theorem getCellD_setCol_ne (r : Row) {c c' : String} (v : Cell) (h : c' ≠ c) :
    getCellD (setCol r c v) c' = getCellD r c' := by
  simp [getCellD, getCol_setCol_ne r v h]

theorem getCellD_eq_none_of_not_hasCol {r : Row} {c : String}
    (h : hasCol r c = false) : getCellD r c = none := by
  have hs := hasCol_eq_isSome_getCol r c
  rw [h] at hs
  cases hg : getCol r c with
  | none => simp [getCellD, hg]
  | some v => rw [hg] at hs; simp at hs

theorem hasCol_fillMissing (l : List String) (row : Row) (c : String) :
    hasCol (fillMissing row l) c = (hasCol row c || decide (c ∈ l)) := by
  induction l generalizing row with
  | nil => simp [fillMissing]
  | cons col rest ih =>
    by_cases hc : hasCol row col
    · by_cases hmem : c = col
      · subst hmem
        simp [fillMissing, hc, ih, List.mem_cons]
      · simp [fillMissing, hc, ih, List.mem_cons, hmem]
    · by_cases hmem : c = col
      · subst hmem
        simp [fillMissing, hc, ih, List.mem_cons, hasCol_setCol_self]
      · simp [fillMissing, hc, ih, List.mem_cons, hmem,
          hasCol_setCol_ne row (some 0) hmem]

theorem getCellD_fillMissing (l : List String) (row : Row) (c : String) :
    getCellD (fillMissing row l) c =
      (if hasCol row c then getCellD row c else if c ∈ l then some 0 else none) := by
  induction l generalizing row with
  | nil =>
    by_cases hc : hasCol row c
    · simp [fillMissing, hc]
    · simp [fillMissing, hc, getCellD_eq_none_of_not_hasCol (by simpa using hc)]
  | cons col rest ih =>
    by_cases hcol : hasCol row col
    · -- column already present: row unchanged this step
      by_cases hmem : c = col
      · subst hmem
        simp [fillMissing, hcol, ih, hcol]
      · simp [fillMissing, hcol, ih, List.mem_cons, hmem]
    · -- column filled with default 0
      by_cases hmem : c = col
      · subst hmem
        simp [fillMissing, hcol, ih, hasCol_setCol_self, getCellD_setCol_self,
          List.mem_cons]
      · have h1 : hasCol (setCol row col (some 0)) c = hasCol row c :=
          hasCol_setCol_ne row (some 0) hmem
        have h2 : getCellD (setCol row col (some 0)) c = getCellD row c :=
          getCellD_setCol_ne row (some 0) hmem
        simp [fillMissing, hcol, ih, h1, h2, List.mem_cons, hmem]

/-- C7 — Feature Resolver contract: `prepare_prediction_data(row, feature_set)`
returns exactly `feature_set`'s columns, in `feature_set`'s order; every
required column absent from `row` (one-hot family and numeric alike) is
filled with 0; columns of `row` outside `feature_set` are dropped; the
function is total (no error for missing columns) and pure (a new structure
is returned, the input row is untouched). -/
theorem feature_resolver_contract (row : Row) (feature_cols : List String) :
    prepare_prediction_data row feature_cols =
      feature_cols.map
        (fun c => (c, if hasCol row c then getCellD row c else some 0)) := by
  unfold prepare_prediction_data
  refine List.map_congr_left (fun c hc => ?_)
  rw [getCellD_fillMissing]
  by_cases h : hasCol row c
  · simp [h]
  · simp [h, hc]

/-- C6 — Competition no-op identity: for every row set,
`apply_competition(rows, 0)` returns a row set structurally equal to its
input (the source takes the `adjustment == 0` early return on a copy). -/
theorem competition_noop_identity (df : DF) :
    apply_competition_scenario df 0 = df := by
  simp [apply_competition_scenario]

theorem getCol_shiftOne_ne (src dst : String) (r : Row) {c : String} (h : c ≠ dst) :
    getCol (shiftOne src dst r) c = getCol r c := by
  unfold shiftOne
  split
  · exact getCol_setCol_ne r _ h
  · rfl

theorem hasCol_shiftOne_ne (src dst : String) (r : Row) {c : String} (h : c ≠ dst) :
    hasCol (shiftOne src dst r) c = hasCol r c := by
  unfold shiftOne
  split
  · exact hasCol_setCol_ne r _ h
  · rfl

theorem getCellD_shiftOne_ne (src dst : String) (r : Row) {c : String} (h : c ≠ dst) :
    getCellD (shiftOne src dst r) c = getCellD r c := by
  simp [getCellD, getCol_shiftOne_ne src dst r h]

theorem getCol_shiftOne_dst (src dst : String) (r : Row) :
    getCol (shiftOne src dst r) dst =
      (if hasCol r src then some (getCellD r src) else getCol r dst) := by
  unfold shiftOne
  split
  · simp [getCol_setCol_self]
  · rfl

theorem update_lags_snd (row : Row) (p : ℚ) (h : List ℚ) :
    (update_lags row p h).2 =
      (if 7 < (h ++ [p]).length then (h ++ [p]).drop 1 else h ++ [p]) := rfl

theorem update_lags_lag1 (row : Row) (p : ℚ) (h : List ℚ) :
    getCol (update_lags row p h).1 "unidades_vendidas_lag1" = some (some p) := by
  unfold update_lags
  rw [getCol_setCol_ne _ _ (by decide), getCol_setCol_self]

theorem update_lags_ma7 (row : Row) (p : ℚ) (h : List ℚ) :
    getCol (update_lags row p h).1 "unidades_vendidas_ma7" =
      some (some (listMean (update_lags row p h).2)) := by
  unfold update_lags
  rw [getCol_setCol_self]

theorem update_lags_lag2 (row : Row) (p : ℚ) (h : List ℚ) :
    getCol (update_lags row p h).1 "unidades_vendidas_lag2" =
      (if hasCol row "unidades_vendidas_lag1" then
        some (getCellD row "unidades_vendidas_lag1")
      else getCol row "unidades_vendidas_lag2") := by
  unfold update_lags
  rw [getCol_setCol_ne _ _ (by decide), getCol_setCol_ne _ _ (by decide),
    getCol_shiftOne_dst]
  rw [hasCol_shiftOne_ne _ _ _ (by decide), hasCol_shiftOne_ne _ _ _ (by decide),
    hasCol_shiftOne_ne _ _ _ (by decide), hasCol_shiftOne_ne _ _ _ (by decide),
    hasCol_shiftOne_ne _ _ _ (by decide)]
  rw [getCellD_shiftOne_ne _ _ _ (by decide), getCellD_shiftOne_ne _ _ _ (by decide),
    getCellD_shiftOne_ne _ _ _ (by decide), getCellD_shiftOne_ne _ _ _ (by decide),
    getCellD_shiftOne_ne _ _ _ (by decide)]
  rw [getCol_shiftOne_ne _ _ _ (by decide), getCol_shiftOne_ne _ _ _ (by decide),
    getCol_shiftOne_ne _ _ _ (by decide), getCol_shiftOne_ne _ _ _ (by decide),
    getCol_shiftOne_ne _ _ _ (by decide)]

theorem update_lags_lag3 (row : Row) (p : ℚ) (h : List ℚ) :
    getCol (update_lags row p h).1 "unidades_vendidas_lag3" =
      (if hasCol row "unidades_vendidas_lag2" then
        some (getCellD row "unidades_vendidas_lag2")
      else getCol row "unidades_vendidas_lag3") := by
  unfold update_lags
  rw [getCol_setCol_ne _ _ (by decide), getCol_setCol_ne _ _ (by decide),
    getCol_shiftOne_ne _ _ _ (by decide), getCol_shiftOne_dst]
  rw [hasCol_shiftOne_ne _ _ _ (by decide), hasCol_shiftOne_ne _ _ _ (by decide),
    hasCol_shiftOne_ne _ _ _ (by decide), hasCol_shiftOne_ne _ _ _ (by decide)]
  rw [getCellD_shiftOne_ne _ _ _ (by decide), getCellD_shiftOne_ne _ _ _ (by decide),
    getCellD_shiftOne_ne _ _ _ (by decide), getCellD_shiftOne_ne _ _ _ (by decide)]
  rw [getCol_shiftOne_ne _ _ _ (by decide), getCol_shiftOne_ne _ _ _ (by decide),
    getCol_shiftOne_ne _ _ _ (by decide), getCol_shiftOne_ne _ _ _ (by decide)]

theorem update_lags_lag4 (row : Row) (p : ℚ) (h : List ℚ) :
    getCol (update_lags row p h).1 "unidades_vendidas_lag4" =
      (if hasCol row "unidades_vendidas_lag3" then
        some (getCellD row "unidades_vendidas_lag3")
      else getCol row "unidades_vendidas_lag4") := by
  unfold update_lags
  rw [getCol_setCol_ne _ _ (by decide), getCol_setCol_ne _ _ (by decide),
    getCol_shiftOne_ne _ _ _ (by decide), getCol_shiftOne_ne _ _ _ (by decide),
    getCol_shiftOne_dst]
  rw [hasCol_shiftOne_ne _ _ _ (by decide), hasCol_shiftOne_ne _ _ _ (by decide),
    hasCol_shiftOne_ne _ _ _ (by decide)]
  rw [getCellD_shiftOne_ne _ _ _ (by decide), getCellD_shiftOne_ne _ _ _ (by decide),
    getCellD_shiftOne_ne _ _ _ (by decide)]
  rw [getCol_shiftOne_ne _ _ _ (by decide), getCol_shiftOne_ne _ _ _ (by decide),
    getCol_shiftOne_ne _ _ _ (by decide)]

theorem update_lags_lag5 (row : Row) (p : ℚ) (h : List ℚ) :
    getCol (update_lags row p h).1 "unidades_vendidas_lag5" =
      (if hasCol row "unidades_vendidas_lag4" then
        some (getCellD row "unidades_vendidas_lag4")
      else getCol row "unidades_vendidas_lag5") := by
  unfold update_lags
  rw [getCol_setCol_ne _ _ (by decide), getCol_setCol_ne _ _ (by decide),
    getCol_shiftOne_ne _ _ _ (by decide), getCol_shiftOne_ne _ _ _ (by decide),
    getCol_shiftOne_ne _ _ _ (by decide), getCol_shiftOne_dst]
  rw [hasCol_shiftOne_ne _ _ _ (by decide), hasCol_shiftOne_ne _ _ _ (by decide)]
  rw [getCellD_shiftOne_ne _ _ _ (by decide), getCellD_shiftOne_ne _ _ _ (by decide)]
  rw [getCol_shiftOne_ne _ _ _ (by decide), getCol_shiftOne_ne _ _ _ (by decide)]

theorem update_lags_lag6 (row : Row) (p : ℚ) (h : List ℚ) :
    getCol (update_lags row p h).1 "unidades_vendidas_lag6" =
      (if hasCol row "unidades_vendidas_lag5" then
        some (getCellD row "unidades_vendidas_lag5")
      else getCol row "unidades_vendidas_lag6") := by
  unfold update_lags
  rw [getCol_setCol_ne _ _ (by decide), getCol_setCol_ne _ _ (by decide),
    getCol_shiftOne_ne _ _ _ (by decide), getCol_shiftOne_ne _ _ _ (by decide),
    getCol_shiftOne_ne _ _ _ (by decide), getCol_shiftOne_ne _ _ _ (by decide),
    getCol_shiftOne_dst]
  rw [hasCol_shiftOne_ne _ _ _ (by decide)]
  rw [getCellD_shiftOne_ne _ _ _ (by decide)]
  rw [getCol_shiftOne_ne _ _ _ (by decide)]

theorem update_lags_lag7 (row : Row) (p : ℚ) (h : List ℚ) :
    getCol (update_lags row p h).1 "unidades_vendidas_lag7" =
      (if hasCol row "unidades_vendidas_lag6" then
        some (getCellD row "unidades_vendidas_lag6")
      else getCol row "unidades_vendidas_lag7") := by
  unfold update_lags
  rw [getCol_setCol_ne _ _ (by decide), getCol_setCol_ne _ _ (by decide),
    getCol_shiftOne_ne _ _ _ (by decide), getCol_shiftOne_ne _ _ _ (by decide),
    getCol_shiftOne_ne _ _ _ (by decide), getCol_shiftOne_ne _ _ _ (by decide),
    getCol_shiftOne_ne _ _ _ (by decide), getCol_shiftOne_dst]

/-- Preservation: `update_lags` writes only the seven lag columns and the
`ma7` column, so every other column of the row keeps its lookup result. -/
theorem update_lags_other (row : Row) (p : ℚ) (h : List ℚ) {c : String}
    (h1 : c ≠ "unidades_vendidas_lag1") (h2 : c ≠ "unidades_vendidas_lag2")
    (h3 : c ≠ "unidades_vendidas_lag3") (h4 : c ≠ "unidades_vendidas_lag4")
    (h5 : c ≠ "unidades_vendidas_lag5") (h6 : c ≠ "unidades_vendidas_lag6")
    (h7 : c ≠ "unidades_vendidas_lag7") (hm : c ≠ "unidades_vendidas_ma7") :
    getCol (update_lags row p h).1 c = getCol row c := by
  unfold update_lags
  rw [getCol_setCol_ne _ _ hm, getCol_setCol_ne _ _ h1,
    getCol_shiftOne_ne _ _ _ h2, getCol_shiftOne_ne _ _ _ h3,
    getCol_shiftOne_ne _ _ _ h4, getCol_shiftOne_ne _ _ _ h5,
    getCol_shiftOne_ne _ _ _ h6, getCol_shiftOne_ne _ _ _ h7]

/-- C10 — `update_lags` edge semantics: for every next row, predicted value
and history, the shift for distance d (7 down to 2) assigns the row's
`lag_d` from the row's own pre-call `lag_{d-1}` cell and is skipped for any
d whose `lag_{d-1}` column is absent (leaving `lag_d` untouched); `lag1`
and `ma7` are always written (created when absent), with `ma7` the mean of
the updated history; the function receives only the next day's row, so the
current day's row is never consulted. -/
theorem update_lags_edge_semantics (row : Row) (p : ℚ) (h : List ℚ) :
    (update_lags row p h).2 =
        (if 7 < (h ++ [p]).length then (h ++ [p]).drop 1 else h ++ [p])
    ∧ getCol (update_lags row p h).1 "unidades_vendidas_lag1" = some (some p)
    ∧ getCol (update_lags row p h).1 "unidades_vendidas_ma7" =
        some (some (listMean (update_lags row p h).2))
    ∧ getCol (update_lags row p h).1 "unidades_vendidas_lag2" =
        (if hasCol row "unidades_vendidas_lag1" then
          some (getCellD row "unidades_vendidas_lag1")
        else getCol row "unidades_vendidas_lag2")
    ∧ getCol (update_lags row p h).1 "unidades_vendidas_lag3" =
        (if hasCol row "unidades_vendidas_lag2" then
          some (getCellD row "unidades_vendidas_lag2")
        else getCol row "unidades_vendidas_lag3")
    ∧ getCol (update_lags row p h).1 "unidades_vendidas_lag4" =
        (if hasCol row "unidades_vendidas_lag3" then
          some (getCellD row "unidades_vendidas_lag3")
        else getCol row "unidades_vendidas_lag4")
    ∧ getCol (update_lags row p h).1 "unidades_vendidas_lag5" =
        (if hasCol row "unidades_vendidas_lag4" then
          some (getCellD row "unidades_vendidas_lag4")
        else getCol row "unidades_vendidas_lag5")
    ∧ getCol (update_lags row p h).1 "unidades_vendidas_lag6" =
        (if hasCol row "unidades_vendidas_lag5" then
          some (getCellD row "unidades_vendidas_lag5")
        else getCol row "unidades_vendidas_lag6")
    ∧ getCol (update_lags row p h).1 "unidades_vendidas_lag7" =
        (if hasCol row "unidades_vendidas_lag6" then
          some (getCellD row "unidades_vendidas_lag6")
        else getCol row "unidades_vendidas_lag7") :=
  ⟨update_lags_snd row p h, update_lags_lag1 row p h, update_lags_ma7 row p h,
    update_lags_lag2 row p h, update_lags_lag3 row p h, update_lags_lag4 row p h,
    update_lags_lag5 row p h, update_lags_lag6 row p h, update_lags_lag7 row p h⟩

/-! ### State lemmas for the forecast loop -/
theorem getD_set_ne {α : Type} (l : List α) {i j : Nat} (a d : α) (hij : i ≠ j) :
    (l.set i a).getD j d = l.getD j d := by
  simp [List.getD_eq_getElem?_getD, List.getElem?_set_ne hij]

theorem getD_set_self {α : Type} (l : List α) {i : Nat} (a d : α) (hi : i < l.length) :
    (l.set i a).getD i d = a := by
  simp [List.getD_eq_getElem?_getD, List.getElem?_set_self hi]

theorem getCol_alignAssign (oldRow newRow : Row) (c : String) :
    getCol (alignAssign oldRow newRow) c =
      (if hasCol oldRow c then some (getCellD newRow c) else none) := by
  induction oldRow with
  | nil => simp [alignAssign, getCol, hasCol]
  | cons p t ih =>
    by_cases h : p.1 = c
    · simp [alignAssign, getCol, hasCol, h]
    · simp [alignAssign, getCol, hasCol, h] at ih ⊢
      exact ih

theorem hasCol_alignAssign (oldRow newRow : Row) (c : String) :
    hasCol (alignAssign oldRow newRow) c = hasCol oldRow c := by
  induction oldRow with
  | nil => simp [alignAssign, hasCol]
  | cons p t ih =>
    by_cases h : p.1 = c
    · simp [alignAssign, hasCol, h]
    · simp [alignAssign, hasCol, h] at ih ⊢
      exact ih

theorem getCellD_alignAssign (oldRow newRow : Row) (c : String) :
    getCellD (alignAssign oldRow newRow) c =
      (if hasCol oldRow c then getCellD newRow c else none) := by
  rw [getCellD, getCol_alignAssign]
  by_cases h : hasCol oldRow c <;> simp [h]

theorem simStates_rows_length (m : Model) (fc : List String) (s : DF) (k : Nat) :
    (simStates m fc s k).rows.length = s.length := by
  induction k with
  | zero => rfl
  | succ k ih =>
    simp only [simStates, simStep]
    split
    · simpa using ih
    · simpa using ih

theorem simStates_rows_getD_gt (m : Model) (fc : List String) (s : DF)
    {k j : Nat} (h : k < j) :
    (simStates m fc s k).rows.getD j [] = s.getD j [] := by
  induction k with
  | zero => rfl
  | succ k ih =>
    have hkj : k < j := Nat.lt_of_succ_lt h
    have hne : k + 1 ≠ j := Nat.ne_of_lt h
    simp only [simStates, simStep]
    split
    · rw [getD_set_ne _ _ _ hne]
      exact ih hkj
    · exact ih hkj

theorem simStates_rows_getD_zero (m : Model) (fc : List String) (s : DF) (k : Nat) :
    (simStates m fc s k).rows.getD 0 [] = s.getD 0 [] := by
  induction k with
  | zero => rfl
  | succ k ih =>
    simp only [simStates, simStep]
    split
    · rw [getD_set_ne _ _ _ (Nat.succ_ne_zero k)]
      exact ih
    · exact ih

theorem simStates_preds_succ (m : Model) (fc : List String) (s : DF) (k : Nat) :
    (simStates m fc s (k + 1)).preds =
      (simStates m fc s k).preds
        ++ [(predForDay m fc (simStates m fc s k).rows k).1] := by
  simp only [simStates, simStep]
  split <;> rfl

theorem simStates_preds_length (m : Model) (fc : List String) (s : DF) (k : Nat) :
    (simStates m fc s k).preds.length = k := by
  induction k with
  | zero => rfl
  | succ k ih => rw [simStates_preds_succ]; simp [ih]

theorem simStates_pred_at (m : Model) (fc : List String) (s : DF) (i : Nat) :
    (simStates m fc s (i + 1)).preds.getD i 0 =
      (predForDay m fc (simStates m fc s i).rows i).1 := by
  rw [simStates_preds_succ]
  have hl := simStates_preds_length m fc s i
  rw [List.getD_eq_getElem?_getD, List.getElem?_append_right (le_of_eq hl), hl]
  simp

theorem simStates_preds_getD_stable (m : Model) (fc : List String) (s : DF)
    (i : Nat) : ∀ {j : Nat}, i < j →
    (simStates m fc s j).preds.getD i 0 = (simStates m fc s (i + 1)).preds.getD i 0 := by
  intro j
  induction j with
  | zero => intro h; exact absurd h (Nat.not_lt_zero i)
  | succ j ih =>
    intro hij
    by_cases hj : i < j
    · rw [simStates_preds_succ]
      have hl := simStates_preds_length m fc s j
      rw [List.getD_eq_getElem?_getD,
        List.getElem?_append_left (by omega), ← List.getD_eq_getElem?_getD]
      exact ih hj
    · have hji : j = i := by omega
      subst hji
      rfl

theorem simStates_step_row (m : Model) (fc : List String) (s : DF)
    {k : Nat} (hk1 : 1 ≤ k) (hkn : k < s.length) :
    (simStates m fc s k).rows.getD k [] =
      alignAssign (s.getD k [])
        (update_lags (s.getD k [])
          ((predForDay m fc (simStates m fc s (k - 1)).rows (k - 1)).1)
          (simStates m fc s (k - 1)).hist).1
    ∧ (simStates m fc s k).hist =
      (update_lags (s.getD k [])
        ((predForDay m fc (simStates m fc s (k - 1)).rows (k - 1)).1)
        (simStates m fc s (k - 1)).hist).2 := by
  obtain ⟨j, rfl⟩ : ∃ j, k = j + 1 := ⟨k - 1, by omega⟩
  simp only [Nat.add_sub_cancel]
  have hcond : j < s.length - 1 := by omega
  have hrow : (simStates m fc s j).rows.getD (j + 1) [] = s.getD (j + 1) [] :=
    simStates_rows_getD_gt m fc s (Nat.lt_succ_self j)
  have hlen : (simStates m fc s j).rows.length = s.length :=
    simStates_rows_length m fc s j
  simp only [simStates, simStep, if_pos hcond]
  constructor
  · rw [getD_set_self _ _ _ (by omega), hrow]
  · rw [hrow]

theorem simStates_hist_inv (m : Model) (fc : List String) (s : DF) :
    ∀ {k : Nat}, k < s.length →
    (simStates m fc s k).hist = (simStates m fc s k).preds.drop (k - 7) := by
  intro k
  induction k with
  | zero => intro _; rfl
  | succ k ih =>
    intro h
    have hk : k < s.length := by omega
    have hbranch : k < s.length - 1 := by omega
    have hIH := ih hk
    have hlen := simStates_preds_length m fc s k
    rw [simStates_preds_succ]
    simp only [simStates, simStep, if_pos hbranch]
    rw [update_lags_snd, hIH]
    by_cases h7 : 7 ≤ k
    · rw [if_pos (by
        simp only [List.length_append, List.length_drop, List.length_cons,
          List.length_nil, hlen]
        omega)]
      rw [List.drop_append_of_le_length (by
          simp only [List.length_drop, hlen]
          omega),
        List.drop_append_of_le_length (by omega), List.drop_drop]
      have he : k - 7 + 1 = k + 1 - 7 := by omega
      rw [he]
    · have e1 : k - 7 = 0 := by omega
      have e2 : k + 1 - 7 = 0 := by omega
      rw [e1, e2, if_neg (by
        simp only [List.length_append, List.length_drop, List.length_cons,
          List.length_nil, hlen]
        omega)]
      simp

/-- C9 — Purity and scenario independence: the scenario transforms and the
Recursive Forecaster are functions of their inputs alone (the source copies
its frames and builds a fresh lag history per run), so the sequential
scenario-comparison loop over scenarios A then B returns for B exactly the
result of running B alone on the base skeleton, and every run starts from
an empty lag history. -/
theorem scenario_independence (df_product : DF) (model : Model)
    (fc : List String) (discount A B : ℚ) :
    run_scenario_comparison df_product model fc discount [A, B] =
        [run_scenario df_product model fc discount A,
          run_scenario df_product model fc discount B]
    ∧ (simStates model fc
        (sortByFecha (apply_competition_scenario
          (apply_discount_to_dataframe df_product discount) B)) 0).hist = [] := by
  constructor
  · rfl
  · rfl

theorem simulate_preds_def (df : DF) (model : Model) (fc : List String)
    (d a : ℚ) :
    (simulate_recursive_predictions df model fc d a).preds =
      (simStates model fc (sortByFecha df) (sortByFecha df).length).preds := rfl

/-- C8 — Lag-history bound and rolling average: throughout a forecast run
the lag history after `k` day-transitions is exactly the suffix of the
first `k` recorded predictions past index `k - 7` (each transition appends
the predicted value and discards the oldest entry once the length would
exceed 7), hence holds `min k 7 ≤ 7` values; and for `k ≥ 1` the rolling
average written on day `k`'s row (when the `ma7` column is on the
skeleton) is the mean of this bounded history — the mean of at most the 7
most recently recorded predictions, never a same-day or future one. -/
theorem lag_history_bound_and_ma7 (df : DF) (model : Model) (fc : List String)
    (k : Nat) (hkn : k < (sortByFecha df).length) :
    (simStates model fc (sortByFecha df) k).hist =
        (simStates model fc (sortByFecha df) k).preds.drop (k - 7)
    ∧ (simStates model fc (sortByFecha df) k).hist.length = min k 7
    ∧ (simStates model fc (sortByFecha df) k).preds.length = k
    ∧ (1 ≤ k →
        hasCol ((sortByFecha df).getD k []) "unidades_vendidas_ma7" = true →
        getCol ((simStates model fc (sortByFecha df) k).rows.getD k [])
            "unidades_vendidas_ma7" =
          some (some (listMean (simStates model fc (sortByFecha df) k).hist))) := by
  have hhist := simStates_hist_inv model fc (sortByFecha df) hkn
  have hplen := simStates_preds_length model fc (sortByFecha df) k
  refine ⟨hhist, ?_, hplen, ?_⟩
  · rw [hhist]
    simp only [List.length_drop, hplen]
    omega
  · intro hk1 hma
    obtain ⟨hrow, hhk⟩ := simStates_step_row model fc (sortByFecha df) hk1 hkn
    rw [hrow, getCol_alignAssign, if_pos hma]
    rw [getCellD, update_lags_ma7]
    rw [← hhk]
    rfl

theorem lag_history_bound_and_ma7_witness :
    (1 : Nat) < (sortByFecha wDF).length
    ∧ getCol ((simStates wModel [] (sortByFecha wDF) 1).rows.getD 1 [])
          "unidades_vendidas_ma7" =
        some (some (listMean (simStates wModel [] (sortByFecha wDF) 1).hist)) :=
  ⟨by decide,
    (lag_history_bound_and_ma7 wDF wModel [] 1 (by decide)).2.2.2
      (by decide) (by decide)⟩

/-- C1 counterexample — the lag cascade does not read the previous day's
row: on this concrete run, `lag2` on day 1 at the moment it is predicted
is 9 (day 1's own pre-transition `lag1`), while the claim predicts day 0's
pre-transition `lag1`, which is 5.  The claimed equality is false. -/
theorem lag_cascade_reads_own_row_cex :
    getCol ((simStates wModel [] (sortByFecha cDF) 1).rows.getD 1 [])
        "unidades_vendidas_lag2" = some (some 9)
    ∧ getCellD ((sortByFecha cDF).getD 0 []) "unidades_vendidas_lag1" = some 5
    ∧ ¬ (getCol ((simStates wModel [] (sortByFecha cDF) 1).rows.getD 1 [])
          "unidades_vendidas_lag2" =
        some (getCellD ((sortByFecha cDF).getD 0 []) "unidades_vendidas_lag1")) := by
  refine ⟨by decide, by decide, by decide⟩

/-- C1 amended — Lag cascade, as the code computes it: for every day
`k ≥ 1` of a forecast run, `lag1` on day `k`'s row at the moment it is
predicted equals the prediction recorded for day `k-1` (clamped on the
successful predictor path), and for `d` in `[2,7]`, `lag_d` on day `k`'s
row equals the `lag_{d-1}` value that day `k`'s **own** row held before
the transition (its post-scenario skeleton value) — not day `k-1`'s —
whenever the two lag columns are on the skeleton row. -/
theorem lag_cascade_amended (df : DF) (model : Model) (fc : List String)
    (d a : ℚ) (k : Nat) (hk1 : 1 ≤ k) (hkn : k < (sortByFecha df).length) :
    (hasCol ((sortByFecha df).getD k []) "unidades_vendidas_lag1" = true →
      getCol ((simStates model fc (sortByFecha df) k).rows.getD k [])
          "unidades_vendidas_lag1" =
        some (some ((simulate_recursive_predictions df model fc d a).preds.getD
          (k - 1) 0)))
    ∧ (hasCol ((sortByFecha df).getD k []) "unidades_vendidas_lag2" = true →
        hasCol ((sortByFecha df).getD k []) "unidades_vendidas_lag1" = true →
        getCol ((simStates model fc (sortByFecha df) k).rows.getD k [])
            "unidades_vendidas_lag2" =
          some (getCellD ((sortByFecha df).getD k []) "unidades_vendidas_lag1"))
    ∧ (hasCol ((sortByFecha df).getD k []) "unidades_vendidas_lag3" = true →
        hasCol ((sortByFecha df).getD k []) "unidades_vendidas_lag2" = true →
        getCol ((simStates model fc (sortByFecha df) k).rows.getD k [])
            "unidades_vendidas_lag3" =
          some (getCellD ((sortByFecha df).getD k []) "unidades_vendidas_lag2"))
    ∧ (hasCol ((sortByFecha df).getD k []) "unidades_vendidas_lag4" = true →
        hasCol ((sortByFecha df).getD k []) "unidades_vendidas_lag3" = true →
        getCol ((simStates model fc (sortByFecha df) k).rows.getD k [])
            "unidades_vendidas_lag4" =
          some (getCellD ((sortByFecha df).getD k []) "unidades_vendidas_lag3"))
    ∧ (hasCol ((sortByFecha df).getD k []) "unidades_vendidas_lag5" = true →
        hasCol ((sortByFecha df).getD k []) "unidades_vendidas_lag4" = true →
        getCol ((simStates model fc (sortByFecha df) k).rows.getD k [])
            "unidades_vendidas_lag5" =
          some (getCellD ((sortByFecha df).getD k []) "unidades_vendidas_lag4"))
    ∧ (hasCol ((sortByFecha df).getD k []) "unidades_vendidas_lag6" = true →
        hasCol ((sortByFecha df).getD k []) "unidades_vendidas_lag5" = true →
        getCol ((simStates model fc (sortByFecha df) k).rows.getD k [])
            "unidades_vendidas_lag6" =
          some (getCellD ((sortByFecha df).getD k []) "unidades_vendidas_lag5"))
    ∧ (hasCol ((sortByFecha df).getD k []) "unidades_vendidas_lag7" = true →
        hasCol ((sortByFecha df).getD k []) "unidades_vendidas_lag6" = true →
        getCol ((simStates model fc (sortByFecha df) k).rows.getD k [])
            "unidades_vendidas_lag7" =
          some (getCellD ((sortByFecha df).getD k []) "unidades_vendidas_lag6")) := by
  obtain ⟨hrow, _⟩ := simStates_step_row model fc (sortByFecha df) hk1 hkn
  have hpred :
      (simulate_recursive_predictions df model fc d a).preds.getD (k - 1) 0 =
        (predForDay model fc (simStates model fc (sortByFecha df) (k - 1)).rows
          (k - 1)).1 := by
    rw [simulate_preds_def]
    rw [simStates_preds_getD_stable model fc (sortByFecha df) (k - 1)
      (by omega)]
    have he : k - 1 + 1 = k := by omega
    rw [he]
    obtain ⟨j, rfl⟩ : ∃ j, k = j + 1 := ⟨k - 1, by omega⟩
    simp only [Nat.add_sub_cancel]
    exact simStates_pred_at model fc (sortByFecha df) j
  refine ⟨?_, ?_, ?_, ?_, ?_, ?_, ?_⟩
  · intro h1
    rw [hrow, getCol_alignAssign, if_pos h1, getCellD, update_lags_lag1, hpred]
    rfl
  · intro hd hs
    rw [hrow, getCol_alignAssign, if_pos hd, getCellD, update_lags_lag2, if_pos hs]
    rfl
  · intro hd hs
    rw [hrow, getCol_alignAssign, if_pos hd, getCellD, update_lags_lag3, if_pos hs]
    rfl
  · intro hd hs
    rw [hrow, getCol_alignAssign, if_pos hd, getCellD, update_lags_lag4, if_pos hs]
    rfl
  · intro hd hs
    rw [hrow, getCol_alignAssign, if_pos hd, getCellD, update_lags_lag5, if_pos hs]
    rfl
  · intro hd hs
    rw [hrow, getCol_alignAssign, if_pos hd, getCellD, update_lags_lag6, if_pos hs]
    rfl
  · intro hd hs
    rw [hrow, getCol_alignAssign, if_pos hd, getCellD, update_lags_lag7, if_pos hs]
    rfl

theorem lag_cascade_amended_witness :
    getCol ((simStates wModel [] (sortByFecha wDF) 1).rows.getD 1 [])
        "unidades_vendidas_lag1" =
      some (some ((simulate_recursive_predictions wDF wModel [] 0 0).preds.getD 0 0))
    ∧ getCol ((simStates wModel [] (sortByFecha wDF) 1).rows.getD 1 [])
        "unidades_vendidas_lag2" =
      some (getCellD ((sortByFecha wDF).getD 1 []) "unidades_vendidas_lag1") :=
  ⟨(lag_cascade_amended wDF wModel [] 0 0 1 (by decide) (by decide)).1 (by decide),
    (lag_cascade_amended wDF wModel [] 0 0 1 (by decide) (by decide)).2.1
      (by decide) (by decide)⟩

theorem getD_eq_getElem {α : Type} (l : List α) (d : α) {i : Nat} (h : i < l.length) :
    l.getD i d = l[i] := by
  rw [List.getD_eq_getElem?_getD, List.getElem?_eq_getElem h]
  rfl

theorem getD_mem_of_lt {α : Type} (l : List α) (d : α) {i : Nat} (h : i < l.length) :
    l.getD i d ∈ l := by
  rw [getD_eq_getElem _ _ h]
  exact List.getElem_mem h

/-- The forecast loop never writes any column other than the seven lag
columns and `ma7`: every other column of every row keeps its cell through
all day-transitions. -/
theorem simStates_cell_other (m : Model) (fc : List String) (s : DF) {c : String}
    (h1 : c ≠ "unidades_vendidas_lag1") (h2 : c ≠ "unidades_vendidas_lag2")
    (h3 : c ≠ "unidades_vendidas_lag3") (h4 : c ≠ "unidades_vendidas_lag4")
    (h5 : c ≠ "unidades_vendidas_lag5") (h6 : c ≠ "unidades_vendidas_lag6")
    (h7 : c ≠ "unidades_vendidas_lag7") (hm : c ≠ "unidades_vendidas_ma7")
    (k j : Nat) :
    getCellD ((simStates m fc s k).rows.getD j []) c = getCellD (s.getD j []) c := by
  induction k generalizing j with
  | zero => rfl
  | succ k ih =>
    simp only [simStates, simStep]
    split
    · by_cases hj : k + 1 = j
      · subst hj
        rename_i hcond
        have hlt : k + 1 < (simStates m fc s k).rows.length := by
          rw [simStates_rows_length]
          omega
        rw [getD_set_self _ _ _ hlt, getCellD_alignAssign]
        by_cases hc : hasCol ((simStates m fc s k).rows.getD (k + 1) []) c
        · rw [if_pos hc]
          have hother := update_lags_other
            ((simStates m fc s k).rows.getD (k + 1) [])
            (predForDay m fc (simStates m fc s k).rows k).1
            (simStates m fc s k).hist h1 h2 h3 h4 h5 h6 h7 hm
          rw [getCellD, hother, ← getCellD]
          exact ih (k + 1)
        · rw [if_neg hc]
          have hfalse : hasCol ((simStates m fc s k).rows.getD (k + 1) []) c = false := by
            simpa using hc
          have hnone := getCellD_eq_none_of_not_hasCol hfalse
          rw [← ih (k + 1), hnone]
      · rw [getD_set_ne _ _ _ hj]
        exact ih j
    · exact ih j

/-- The fallback computed from the simulation's current rows at any stage
equals the fallback computed from the pre-simulation sorted skeleton: the
historical-target column is never touched by the forecast loop. -/
theorem fallbackPred_states (m : Model) (fc : List String) (s : DF) (k idx : Nat) :
    fallbackPred (simStates m fc s k).rows idx = fallbackPred s idx := by
  have hcell : ∀ j, getCellD ((simStates m fc s k).rows.getD j []) "unidades_vendidas"
      = getCellD (s.getD j []) "unidades_vendidas" :=
    fun j => simStates_cell_other m fc s (by decide) (by decide) (by decide)
      (by decide) (by decide) (by decide) (by decide) (by decide) k j
  have hcol : colCells (simStates m fc s k).rows "unidades_vendidas" =
      colCells s "unidades_vendidas" := by
    unfold colCells
    refine List.ext_getElem
      (by rw [List.length_map, List.length_map, simStates_rows_length]) ?_
    intro n h1n h2n
    rw [List.getElem_map, List.getElem_map]
    have hc := hcell n
    rw [getD_eq_getElem _ _ (by simpa using h1n),
      getD_eq_getElem _ _ (by simpa using h2n)] at hc
    exact hc
  have hdf : hasColDF (simStates m fc s k).rows "unidades_vendidas" =
      hasColDF s "unidades_vendidas" := by
    unfold hasColDF
    rw [simStates_rows_getD_zero]
  unfold fallbackPred notnaAny colMeanSkipNA
  rw [hdf, hcol, hcell idx]

theorem simStates_warns_succ (m : Model) (fc : List String) (s : DF) (k : Nat) :
    (simStates m fc s (k + 1)).warns =
      (if (predForDay m fc (simStates m fc s k).rows k).2 then
        (simStates m fc s k).warns ++ [k]
      else (simStates m fc s k).warns) := by
  simp only [simStates, simStep]
  split <;> rfl

theorem simStates_warn_mem (m : Model) (fc : List String) (s : DF) (k : Nat)
    (hfail : (predForDay m fc (simStates m fc s k).rows k).2 = true) :
    ∀ {j : Nat}, k < j → k ∈ (simStates m fc s j).warns := by
  intro j
  induction j with
  | zero => intro h; exact absurd h (Nat.not_lt_zero k)
  | succ j ih =>
    intro hkj
    by_cases hj : k < j
    · rw [simStates_warns_succ]
      split
      · exact List.mem_append_left _ (ih hj)
      · exact ih hj
    · have hjk : j = k := by omega
      subst hjk
      rw [simStates_warns_succ, if_pos hfail]
      exact List.mem_append_right _ (List.mem_singleton.mpr rfl)

theorem simulate_warns_def (df : DF) (model : Model) (fc : List String)
    (d a : ℚ) :
    (simulate_recursive_predictions df model fc d a).warns =
      (simStates model fc (sortByFecha df) (sortByFecha df).length).warns := rfl

/-- C3 — Fallback on predictor failure: if the predictor raises on day `k`
of a forecast run, the run continues (the day is recorded as a warning,
not an error) and the value recorded for day `k` is `fallbackPred` of the
**pre-simulation** sorted skeleton: the day's historical target when the
target column exists and the day's entry is non-missing, else the mean of
all non-missing historical targets of the original skeleton (the loop
never writes the target column, so no previously predicted value can enter
this mean), else 0. -/
theorem fallback_on_predictor_failure (df : DF) (model : Model) (fc : List String)
    (d a : ℚ) (k : Nat) (hkn : k < (sortByFecha df).length) (msg : String)
    (hfail : model (prepare_prediction_data
        ((simStates model fc (sortByFecha df) k).rows.getD k []) fc) =
      Except.error msg) :
    (simulate_recursive_predictions df model fc d a).preds.getD k 0 =
        fallbackPred (sortByFecha df) k
    ∧ k ∈ (simulate_recursive_predictions df model fc d a).warns := by
  have hpw : predForDay model fc (simStates model fc (sortByFecha df) k).rows k =
      (fallbackPred (simStates model fc (sortByFecha df) k).rows k, true) := by
    unfold predForDay
    rw [hfail]
  constructor
  · rw [simulate_preds_def,
      simStates_preds_getD_stable model fc (sortByFecha df) k hkn,
      simStates_pred_at, hpw]
    exact fallbackPred_states model fc (sortByFecha df) k k
  · rw [simulate_warns_def]
    exact simStates_warn_mem model fc (sortByFecha df) k (by rw [hpw]) hkn

theorem fallback_on_predictor_failure_witness :
    (simulate_recursive_predictions wDF wFailModel [] 0 0).preds.getD 0 0 =
        fallbackPred (sortByFecha wDF) 0
    ∧ 0 ∈ (simulate_recursive_predictions wDF wFailModel [] 0 0).warns :=
  fallback_on_predictor_failure wDF wFailModel [] 0 0 0 (by decide)
    "prediction failed" (by rfl)

/-- C2 counterexample — the fallback path is not clamped: on this concrete
run the predictor raises, the fallback records the day's historical target
`-5` as the prediction, and the claimed non-negativity of every recorded
value is false. -/
theorem nonneg_fallback_unclamped_cex :
    (simulate_recursive_predictions negDF wFailModel [] 0 0).preds = [-5]
    ∧ ¬ (∀ p ∈ (simulate_recursive_predictions negDF wFailModel [] 0 0).preds,
        0 ≤ p) := by
  refine ⟨by decide, by decide⟩

theorem listMean_nonneg {l : List ℚ} (h : ∀ x ∈ l, 0 ≤ x) : 0 ≤ listMean l := by
  unfold listMean
  exact div_nonneg (List.sum_nonneg h) (Nat.cast_nonneg _)

theorem fallbackPred_nonneg (s : DF) (idx : Nat)
    (hs : ∀ r ∈ s, ∀ v : ℚ, getCellD r "unidades_vendidas" = some v → 0 ≤ v) :
    0 ≤ fallbackPred s idx := by
  unfold fallbackPred
  split
  · cases hv : getCellD (s.getD idx []) "unidades_vendidas" with
    | some v =>
      by_cases hidx : idx < s.length
      · exact hs _ (getD_mem_of_lt s [] hidx) v hv
      · exfalso
        have hnil : s.getD idx [] = ([] : Row) := by
          rw [List.getD_eq_getElem?_getD, List.getElem?_eq_none (by omega)]
          rfl
        rw [hnil] at hv
        simp [getCellD, getCol] at hv
    | none =>
      apply listMean_nonneg
      intro x hx
      rw [List.mem_filterMap] at hx
      obtain ⟨cell, hcell, hid⟩ := hx
      unfold colCells at hcell
      rw [List.mem_map] at hcell
      obtain ⟨r, hr, hrc⟩ := hcell
      exact hs r hr x (hrc.symm ▸ hid)
  · exact le_refl 0

theorem mem_insertFecha {x r : Row} : ∀ {l : DF}, x ∈ insertFecha r l → x = r ∨ x ∈ l := by
  intro l
  induction l with
  | nil =>
    intro h
    simp only [insertFecha] at h
    exact Or.inl (List.mem_singleton.mp h)
  | cons y ys ih =>
    intro h
    simp only [insertFecha] at h
    split at h
    · rcases List.mem_cons.mp h with h1 | h2
      · exact Or.inr (List.mem_cons.mpr (Or.inl h1))
      · rcases ih h2 with ha | hb
        · exact Or.inl ha
        · exact Or.inr (List.mem_cons.mpr (Or.inr hb))
    · rcases List.mem_cons.mp h with h1 | h2
      · exact Or.inl h1
      · exact Or.inr h2

theorem mem_sortByFecha {x : Row} : ∀ {l : DF}, x ∈ sortByFecha l → x ∈ l := by
  intro l
  induction l with
  | nil =>
    intro h
    simpa [sortByFecha] using h
  | cons y ys ih =>
    intro h
    simp only [sortByFecha] at h
    rcases mem_insertFecha h with h1 | h2
    · exact h1 ▸ List.mem_cons_self y ys
    · exact List.mem_cons_of_mem y (ih h2)

theorem simStates_preds_nonneg (df : DF) (model : Model) (fc : List String)
    (hnn : ∀ r ∈ df, ∀ v : ℚ, getCellD r "unidades_vendidas" = some v → 0 ≤ v) :
    ∀ k : Nat, ∀ p ∈ (simStates model fc (sortByFecha df) k).preds, 0 ≤ p := by
  have hs : ∀ r ∈ sortByFecha df, ∀ v : ℚ,
      getCellD r "unidades_vendidas" = some v → 0 ≤ v :=
    fun r hr => hnn r (mem_sortByFecha hr)
  intro k
  induction k with
  | zero =>
    intro p hp
    simp [simStates] at hp
  | succ k ih =>
    intro p hp
    rw [simStates_preds_succ] at hp
    rcases List.mem_append.mp hp with hp1 | hp2
    · exact ih p hp1
    · rw [List.mem_singleton] at hp2
      subst hp2
      unfold predForDay
      cases hm : model (prepare_prediction_data
          ((simStates model fc (sortByFecha df) k).rows.getD k []) fc) with
      | ok q => exact le_max_left 0 q
      | error e =>
        show (0 : ℚ) ≤ fallbackPred (simStates model fc (sortByFecha df) k).rows k
        rw [fallbackPred_states model fc (sortByFecha df) k k]
        exact fallbackPred_nonneg _ _ hs

/-- C2 amended — Non-negativity holds on the successful predictor path,
where the result is clamped with `max(0, ...)` before being recorded; the
fallback path records the historical target (or mean) **unclamped**.
Consequently, whenever every non-missing historical target of the input
series is non-negative, every recorded per-day prediction is non-negative. -/
theorem nonneg_amended (df : DF) (model : Model) (fc : List String) (d a : ℚ)
    (hnn : ∀ r ∈ df, ∀ v : ℚ, getCellD r "unidades_vendidas" = some v → 0 ≤ v) :
    (∀ p ∈ (simulate_recursive_predictions df model fc d a).preds, 0 ≤ p)
    ∧ (∀ (k : Nat) (q : ℚ),
        model (prepare_prediction_data
          ((simStates model fc (sortByFecha df) k).rows.getD k []) fc) =
            Except.ok q →
        (predForDay model fc (simStates model fc (sortByFecha df) k).rows k).1 =
          max 0 q) := by
  constructor
  · intro p hp
    rw [simulate_preds_def] at hp
    exact simStates_preds_nonneg df model fc hnn _ p hp
  · intro k q hq
    unfold predForDay
    rw [hq]

theorem nonneg_amended_witness :
    (0 : ℚ) ≤ (simulate_recursive_predictions posDF wFailModel [] 0 0).preds.getD 0 0 :=
  (nonneg_amended posDF wFailModel [] 0 0 (by
      intro r hr v hv
      unfold posDF at hr
      rw [List.mem_singleton] at hr
      subst hr
      have h5 : getCellD posRow "unidades_vendidas" = some 5 := by decide
      rw [h5] at hv
      have hv5 : v = 5 := by
        injection hv with hvv
        exact hvv.symm
      rw [hv5]
      norm_num)).1
    ((simulate_recursive_predictions posDF wFailModel [] 0 0).preds.getD 0 0)
    (by decide)

/-- C4 — Empty product selection: when no rows match the requested product
the simulate-button branch refuses to run with the dedicated
`No data found for product` error and produces no prediction series (the
error carries no `SimOut`), and this report is distinct from a prediction
failure: a non-empty selection always completes with `Except.ok` — a
raising predictor is absorbed inside the run as per-day warnings, never as
this error. -/
theorem empty_product_selection_refused (df_inference : List IRow)
    (product : String) (model : Model) (fc : List String) (d a : ℚ) :
    (((df_inference.filter (fun ir => ir.nombre = product)).map
        (fun ir => ir.row)) = [] →
      simulate_button_branch df_inference product model fc d a =
        Except.error ("No data found for product: " ++ product))
    ∧ (((df_inference.filter (fun ir => ir.nombre = product)).map
        (fun ir => ir.row)) ≠ [] →
      simulate_button_branch df_inference product model fc d a =
        Except.ok (simulate_recursive_predictions
          (apply_competition_scenario
            (apply_discount_to_dataframe
              ((df_inference.filter (fun ir => ir.nombre = product)).map
                (fun ir => ir.row)) d) a)
          model fc d a)) := by
  constructor
  · intro h
    unfold simulate_button_branch
    rw [h]
    rfl
  · intro h
    unfold simulate_button_branch
    rw [if_neg (by simpa [List.length_eq_zero] using h)]

theorem empty_product_selection_refused_witness :
    simulate_button_branch wInference "Balon" wModel [] 0 0 =
        Except.error ("No data found for product: " ++ "Balon")
    ∧ simulate_button_branch wInference "Camiseta" wModel [] 0 0 =
        Except.ok (simulate_recursive_predictions
          (apply_competition_scenario
            (apply_discount_to_dataframe
              ((wInference.filter (fun ir => ir.nombre = "Camiseta")).map
                (fun ir => ir.row)) 0) 0)
          wModel [] 0 0) :=
  ⟨(empty_product_selection_refused wInference "Balon" wModel [] 0 0).1 (by decide),
    (empty_product_selection_refused wInference "Camiseta" wModel [] 0 0).2
      (by decide)⟩

theorem getD_map_lt {α β : Type} (f : α → β) (l : List α) (d : β) (da : α)
    {i : Nat} (h : i < l.length) :
    (l.map f).getD i d = f (l.getD i da) := by
  rw [List.getD_eq_getElem?_getD, List.getD_eq_getElem?_getD, List.getElem?_map,
    List.getElem?_eq_getElem h]
  rfl

/-- C5 — Discount transform: when the frame has no `precio_base` column it
is returned unchanged; when it has one, every row's `precio_venta` becomes
`precio_base * (1 - discount_pct / 100)`, `descuento_porcentaje` (when a
column) is overwritten with `discount_pct`, and `ratio_precio` (when
`precio_competencia` is a column) is recomputed as the new selling price
divided by the competitor price; in particular base price 100 with
`discount_pct = 20` yields selling price 80 and ratio `80 / c` for
competitor price `c`. -/
theorem discount_transform (df : DF) (d : ℚ) :
    (hasColDF df "precio_base" = false → apply_discount_to_dataframe df d = df)
    ∧ (hasColDF df "precio_base" = true → ∀ i : Nat, i < df.length →
        (getCol ((apply_discount_to_dataframe df d).getD i []) "precio_venta" =
            some ((getCellD (df.getD i []) "precio_base").map
              (fun b => b * (1 - d / 100)))
          ∧ (hasColDF df "descuento_porcentaje" = true →
              getCol ((apply_discount_to_dataframe df d).getD i [])
                  "descuento_porcentaje" = some (some d))
          ∧ (hasColDF df "precio_competencia" = true →
              getCol ((apply_discount_to_dataframe df d).getD i []) "ratio_precio" =
                some (cellDiv
                  ((getCellD (df.getD i []) "precio_base").map
                    (fun b => b * (1 - d / 100)))
                  (getCellD (df.getD i []) "precio_competencia")))))
    ∧ (∀ c : ℚ,
        getCol ((apply_discount_to_dataframe
            [[("precio_base", some 100), ("precio_competencia", some c)]] 20).getD
            0 []) "precio_venta" = some (some 80)
        ∧ getCol ((apply_discount_to_dataframe
            [[("precio_base", some 100), ("precio_competencia", some c)]] 20).getD
            0 []) "ratio_precio" = some (some (80 / c))) := by
  have main : ∀ (df' : DF) (d' : ℚ), hasColDF df' "precio_base" = true →
      ∀ i : Nat, i < df'.length →
      (getCol ((apply_discount_to_dataframe df' d').getD i []) "precio_venta" =
          some ((getCellD (df'.getD i []) "precio_base").map
            (fun b => b * (1 - d' / 100)))
        ∧ (hasColDF df' "descuento_porcentaje" = true →
            getCol ((apply_discount_to_dataframe df' d').getD i [])
                "descuento_porcentaje" = some (some d'))
        ∧ (hasColDF df' "precio_competencia" = true →
            getCol ((apply_discount_to_dataframe df' d').getD i []) "ratio_precio" =
              some (cellDiv
                ((getCellD (df'.getD i []) "precio_base").map
                  (fun b => b * (1 - d' / 100)))
                (getCellD (df'.getD i []) "precio_competencia")))) := by
    intro df' d' hbase i hi
    simp only [apply_discount_to_dataframe, if_pos hbase]
    rw [getD_map_lt _ df' ([] : Row) ([] : Row) hi]
    by_cases hD : hasColDF df' "descuento_porcentaje" = true
    · by_cases hC : hasColDF df' "precio_competencia" = true
      · rw [if_pos hC, if_pos hD]
        refine ⟨?_, fun _ => ?_, fun _ => ?_⟩
        · rw [getCol_setCol_ne _ _ (by decide), getCol_setCol_ne _ _ (by decide),
            getCol_setCol_self]
        · rw [getCol_setCol_ne _ _ (by decide), getCol_setCol_self]
        · rw [getCol_setCol_self, getCellD_setCol_ne _ _ (by decide),
            getCellD_setCol_self, getCellD_setCol_ne _ _ (by decide),
            getCellD_setCol_ne _ _ (by decide)]
      · rw [if_neg hC, if_pos hD]
        refine ⟨?_, fun _ => ?_, fun hc => absurd hc hC⟩
        · rw [getCol_setCol_ne _ _ (by decide), getCol_setCol_self]
        · rw [getCol_setCol_self]
    · by_cases hC : hasColDF df' "precio_competencia" = true
      · rw [if_pos hC, if_neg hD]
        refine ⟨?_, fun hd => absurd hd hD, fun _ => ?_⟩
        · rw [getCol_setCol_ne _ _ (by decide), getCol_setCol_self]
        · rw [getCol_setCol_self, getCellD_setCol_self,
            getCellD_setCol_ne _ _ (by decide)]
      · rw [if_neg hC, if_neg hD]
        refine ⟨?_, fun hd => absurd hd hD, fun hc => absurd hc hC⟩
        rw [getCol_setCol_self]
  refine ⟨?_, main df d, ?_⟩
  · intro h
    simp only [apply_discount_to_dataframe, h]
    rfl
  · intro c
    obtain ⟨hv, _, hr⟩ :=
      main [[("precio_base", some 100), ("precio_competencia", some c)]] 20
        (by rfl) 0 (by norm_num)
    have h1 : getCellD
        (([[("precio_base", some 100), ("precio_competencia", some c)]] : DF).getD
          0 []) "precio_base" = some 100 := rfl
    have h2 : getCellD
        (([[("precio_base", some 100), ("precio_competencia", some c)]] : DF).getD
          0 []) "precio_competencia" = some c := rfl
    have h80 : (100 : ℚ) * (1 - 20 / 100) = 80 := by norm_num
    constructor
    · rw [hv, h1]
      simp only [Option.map_some']
      rw [h80]
    · rw [hr (by rfl), h1, h2]
      simp only [Option.map_some']
      rw [h80]
      simp only [cellDiv]

theorem discount_transform_witness :
    getCol ((apply_discount_to_dataframe
        [[("precio_base", some 100), ("precio_competencia", some 50)]] 20).getD
        0 []) "precio_venta" = some (some 80)
    ∧ getCol ((apply_discount_to_dataframe
        [[("precio_base", some 100), ("precio_competencia", some 50)]] 20).getD
        0 []) "ratio_precio" = some (some (80 / 50)) :=
  (discount_transform [] 0).2.2 50

end SalesForecast

